import Mathlib

/-!
Verification of the classroom-api repository (Go).

The program lists coursework for a fixed set of Google Classroom courses,
filters each assignment through a visibility check (not overdue, not already
turned in), and prints every visible assignment.  We give a shallow embedding
of the concurrent variant in `src/main.go` (which agrees with
`src/trace/main.go` on all the behaviour below):

* remote calls (`srv.Courses.CourseWork.List`,
  `srv.Courses.CourseWork.StudentSubmissions.List`) are modelled by a record
  of functions returning `Except`;
* the process-local clock (`time.Now()`, read once per check, truncated to a
  calendar day) is modelled by a fixed current calendar date `today`;
* `log.Fatalf` (process termination) is modelled by a `fatal` outcome;
* the fan-out/fan-in goroutine structure is modelled by a small-step
  transition system over the per-course pending items, the channel-closed
  flag and the printed output.
-/

namespace ClassroomAPI

/-- A calendar date, mirroring the `classroom.Date` record (`Year`, `Month`,
`Day` are machine integers in the remote record and may hold invalid values
such as month 13 or day 0). -/
structure Date where
  year : Int
  month : Int
  day : Int
deriving Repr, DecidableEq

/-- A coursework item, keeping the fields of `classroom.CourseWork` the
program reads: `Id`, `Title`, `CourseId`, `AlternateLink`, and the optional
`DueDate`. -/
structure CourseWork where
  id : String
  title : String
  courseId : String
  alternateLink : String
  dueDate : Option Date
deriving Repr, DecidableEq

/-- A student submission record; the program only reads its `State` tag. -/
structure StudentSubmission where
  state : String
deriving Repr, DecidableEq

/-- The remote classroom service, restricted to the two read operations the
program performs.  Each may fail with a transport/authorization error,
modelled as an error message. -/
structure ClassroomService where
  listCourseWork : String → Except String (List CourseWork)
  listStudentSubmissions : String → String → Except String (List StudentSubmission)

/-- The errors `isCourseworkVisible` can return: a date-parse error from
`time.Parse`, or the error of the submission-records lookup. -/
inductive VisError where
  | parseError : VisError
  | lookupError : String → VisError
deriving Repr, DecidableEq

/-- Go's leap-year rule (`time.isLeap`): divisible by 4 and, when divisible by
100, also by 400. -/
def isLeapYear (y : Int) : Bool :=
  y % 4 == 0 && (y % 100 != 0 || y % 400 == 0)

/-- Days in a month, as Go's `time.daysIn` computes it for date validation. -/
def daysInMonth (y m : Int) : Int :=
  if m == 2 then (if isLeapYear y then 29 else 28)
  else if m == 4 || m == 6 || m == 9 || m == 11 then 30
  else 31

/-- Shallow embedding of
`time.Parse("2006-01-02", fmt.Sprintf("%d-%02d-%02d", d.Year, d.Month, d.Day))`
from `isCourseworkVisible`.  The round trip succeeds exactly when the printed
string matches the layout and passes Go's range validation: the year prints as
exactly four digits (1000..9999, since `%d` pads with nothing), the month is
in 1..12 and the day is in 1..daysInMonth (otherwise `time.Parse` reports
"month out of range" / "day out of range", or the printed field has the wrong
width and the layout match fails).  On success the parsed calendar date has
the same three fields. -/
def parseYMD (d : Date) : Option Date :=
  if 1000 ≤ d.year ∧ d.year ≤ 9999 ∧
     1 ≤ d.month ∧ d.month ≤ 12 ∧
     1 ≤ d.day ∧ d.day ≤ daysInMonth d.year d.month
  then some d else none

/-- Strict calendar order on dates: `time.Before` applied to the two
midnight-truncated times compares the dates lexicographically. -/
def Date.before (a b : Date) : Bool :=
  decide (a.year < b.year ∨ (a.year = b.year ∧
    (a.month < b.month ∨ (a.month = b.month ∧ a.day < b.day))))

/-- The effective due date of step 1 and 2 of the filter: the assignment's due
date, parsed, when present; otherwise today's date (the program formats
`time.Now()` with layout "2006-01-02" and reparses it, which always succeeds
and yields today's calendar date, because `Format` zero-pads the year). -/
def effectiveDueDate (today : Date) (c : CourseWork) : Option Date :=
  match c.dueDate with
  | some dd => parseYMD dd
  | none => some today

/-- Steps 5 to 7 of the visibility filter: list the submission records for the
assignment; on lookup failure return `(false, err)`; if any record has state
"TURNED_IN" return `(false, nil)`; otherwise return `(true, nil)`. -/
def submissionCheck (srv : ClassroomService) (c : CourseWork) :
    Bool × Option VisError :=
  match srv.listStudentSubmissions c.courseId c.id with
  | .error e => (false, some (VisError.lookupError e))
  | .ok subs =>
    if subs.any (fun s => s.state == "TURNED_IN") then (false, none)
    else (true, none)

/-- Embedding of `isCourseworkVisible` (src/main.go lines 95-125).  The Go
function returns the pair `(bool, error)`; we keep both components.  A parse
failure of the due-date fields returns `(false, err)`; an effective due date
strictly before today returns `(false, nil)`; otherwise the result is the
submission check. -/
def isCourseworkVisible (srv : ClassroomService) (today : Date)
    (c : CourseWork) : Bool × Option VisError :=
  match effectiveDueDate today c with
  | none => (false, some VisError.parseError)
  | some parsedDate =>
    if parsedDate.before today then (false, none)
    else submissionCheck srv c

/-- The guard of the producer goroutine (src/main.go line 88): an assignment
is published to the channel exactly when the visibility check returned `true`
with a nil error. -/
def published (srv : ClassroomService) (today : Date) (c : CourseWork) : Bool :=
  (isCourseworkVisible srv today c).1 && (isCourseworkVisible srv today c).2.isNone

/-- Outcome of one per-course producer: either the process is killed by
`log.Fatalf`, or the producer finishes having published the listed items that
passed the visibility check. -/
inductive ListerOutcome where
  | fatal : String → ListerOutcome
  | done : List CourseWork → ListerOutcome
deriving Repr, DecidableEq

/-- Embedding of `listCourseWorkFromCourseId` (src/main.go lines 72-93): list
the coursework of the course; on error the process dies (`log.Fatalf`); with
zero assignments return immediately having published nothing; otherwise spawn
one visibility check per assignment and publish each assignment whose check
returned `(true, nil)`.  The multiset of published items is the filter of the
listing by `published`; the channel order is nondeterministic and is modelled
by the transition system below. -/
def listCourseWorkFromCourseId (srv : ClassroomService) (today : Date)
    (courseId : String) : ListerOutcome :=
  match srv.listCourseWork courseId with
  | .error e => ListerOutcome.fatal e
  | .ok works =>
    if works.length ≤ 0 then ListerOutcome.done []
    else ListerOutcome.done (works.filter (published srv today))

/-- The line the consumer prints for one assignment
(`fmt.Printf("%s (%s) link:%s\n", c.Title, c.Id, c.AlternateLink)`). -/
def formatLine (c : CourseWork) : String :=
  c.title ++ " (" ++ c.id ++ ") link:" ++ c.alternateLink

/-- The fan-in consumer (src/main.go lines 194-196): one printed line per item
received from the channel, in arrival order. -/
def aggregate (cs : List CourseWork) : List String :=
  cs.map formatLine

/-- Sequential determinization of a whole run: courses processed in order, a
fatal listing error aborts the run with no output at all (the reference
fatal-error behaviour), otherwise the run produces the printed lines of every
published assignment.  Concurrent interleavings produce the same lines up to
permutation; the transition system below covers the interleaving. -/
def runListerSeq (srv : ClassroomService) (today : Date) :
    List String → Except String (List String)
  | [] => Except.ok []
  | cid :: rest =>
    match listCourseWorkFromCourseId srv today cid with
    | ListerOutcome.fatal e => Except.error e
    | ListerOutcome.done out =>
      match runListerSeq srv today rest with
      | Except.error e => Except.error e
      | Except.ok lines => Except.ok (aggregate out ++ lines)

/-- State of the fan-out/fan-in stage of `_main` after all listing calls have
succeeded: `pending` holds, per course, the published-but-not-yet-consumed
assignments of that course (the per-assignment goroutines may deliver them in
any order); `closed` records whether the coordinating goroutine has closed the
channel; `output` is the sequence of lines the consumer has printed. -/
structure FanState where
  pending : List (List CourseWork)
  closed : Bool
  output : List String
deriving Repr, DecidableEq

/-- Initial fan-in state: nothing consumed, channel open, nothing printed. -/
def initState (p0 : List (List CourseWork)) : FanState :=
  ⟨p0, false, []⟩

/-- One scheduler step of the fan-out/fan-in stage.

`publish`: some per-assignment goroutine of course `i` completes its channel
send; since the channel is unbuffered and the single consumer prints each
received item at once, the rendezvous removes one pending item (any one: the
goroutines race) and appends its line to the output.

`close`: the coordinating goroutine runs `wg.Wait(); close(ch)`.  Its guard is
the two-level join barrier of the code: `wg.Wait` returns only after every
course goroutine has called `wg.Done`, which each one defers until its inner
`wg2.Wait` has seen every per-assignment send finish — hence close fires only
when every course's pending list is empty, and only while the channel is still
open (close happens once). -/
inductive FanStep : FanState → FanState → Prop where
  | publish (p : List (List CourseWork)) (out : List String) (i : Nat)
      (l1 l2 : List CourseWork) (c : CourseWork)
      (h : p.get? i = some (l1 ++ c :: l2)) :
      FanStep ⟨p, false, out⟩ ⟨p.set i (l1 ++ l2), false, out ++ [formatLine c]⟩
  | close (p : List (List CourseWork)) (out : List String)
      (h : ∀ l ∈ p, l = []) :
      FanStep ⟨p, false, out⟩ ⟨p, true, out⟩

/-- Reachability in the fan-in transition system. -/
def FanReach : FanState → FanState → Prop :=
  Relation.ReflTransGen FanStep

/-- Termination measure of the fan-in stage: items still pending, plus one
while the channel is still open. -/
def fanMeasure (s : FanState) : Nat :=
  s.pending.flatten.length + (if s.closed then 0 else 1)

/-- The published items of one course, when its producer completed normally. -/
def publishedList (srv : ClassroomService) (today : Date)
    (courseId : String) : List CourseWork :=
  match listCourseWorkFromCourseId srv today courseId with
  | ListerOutcome.fatal _ => []
  | ListerOutcome.done out => out

/-- Removing one occurrence from one of the nested lists removes exactly that
occurrence from the join. -/
theorem join_set_perm {α : Type} (p : List (List α)) (i : Nat)
    (l1 l2 : List α) (c : α) (h : p.get? i = some (l1 ++ c :: l2)) :
    List.Perm p.flatten (c :: (p.set i (l1 ++ l2)).flatten) := by
  induction p generalizing i with
  | nil => simp at h
  | cons hd tl ih =>
    cases i with
    | zero =>
      simp only [List.get?] at h
      cases h
      have hmid : List.Perm (l1 ++ c :: (l2 ++ tl.flatten))
          (c :: (l1 ++ (l2 ++ tl.flatten))) := List.perm_middle
      simp only [List.set_cons_zero, List.flatten_cons, List.append_assoc,
        List.cons_append]
      exact hmid
    | succ j =>
      simp only [List.get?] at h
      have hperm := ih j h
      have h1 : List.Perm (hd ++ tl.flatten)
          (hd ++ (c :: (tl.set j (l1 ++ l2)).flatten)) :=
        List.Perm.append_left hd hperm
      have h2 : List.Perm (hd ++ (c :: (tl.set j (l1 ++ l2)).flatten))
          (c :: (hd ++ (tl.set j (l1 ++ l2)).flatten)) :=
        List.perm_middle
      simpa using h1.trans h2

/-- The run invariant of the fan-in stage: the printed lines together with the
lines of the still-pending items are a permutation of the lines of every
published item, and a closed channel means every producer had finished. -/
def FanInv (p0 : List (List CourseWork)) (s : FanState) : Prop :=
  List.Perm (s.output ++ s.pending.flatten.map formatLine) (p0.flatten.map formatLine)
  ∧ (s.closed = true → ∀ l ∈ s.pending, l = [])

/-- Each step preserves the run invariant. -/
theorem fanInv_step {p0 : List (List CourseWork)} {s t : FanState}
    (hinv : FanInv p0 s) (hstep : FanStep s t) : FanInv p0 t := by
  obtain ⟨hperm, hclosed⟩ := hinv
  cases hstep with
  | publish p out i l1 l2 c h =>
    refine ⟨?_, by intro hfalse; cases hfalse⟩
    have hj := join_set_perm p i l1 l2 c h
    have hmap : List.Perm (p.flatten.map formatLine)
        (formatLine c :: ((p.set i (l1 ++ l2)).flatten.map formatLine)) := by
      simpa using hj.map formatLine
    have h1 : (out ++ [formatLine c]) ++ (p.set i (l1 ++ l2)).flatten.map formatLine
        = out ++ (formatLine c :: (p.set i (l1 ++ l2)).flatten.map formatLine) := by
      simp
    have h2 : List.Perm
        (out ++ (formatLine c :: (p.set i (l1 ++ l2)).flatten.map formatLine))
        (out ++ p.flatten.map formatLine) :=
      List.Perm.append_left out hmap.symm
    rw [h1]
    exact h2.trans hperm
  | close p out h =>
    exact ⟨hperm, fun _ => h⟩

/-- The invariant holds in every reachable state of the fan-in stage. -/
theorem fanInv_reach {p0 : List (List CourseWork)} {s : FanState}
    (h : FanReach (initState p0) s) : FanInv p0 s := by
  induction h with
  | refl => exact ⟨by simp [initState], by intro hfalse; cases hfalse⟩
  | tail _ hstep ih => exact fanInv_step ih hstep

/-- From any state with the channel still open, some step is enabled: either
an item is pending and can be delivered, or every producer has finished and
the coordinator can close the channel.  The consumer therefore never blocks
forever. -/
theorem fanProgress (s : FanState) (h : s.closed = false) :
    ∃ t, FanStep s t := by
  obtain ⟨p, cl, out⟩ := s
  simp only at h
  subst h
  by_cases hall : ∀ l ∈ p, l = []
  · exact ⟨⟨p, true, out⟩, FanStep.close p out hall⟩
  · push_neg at hall
    obtain ⟨l, hl, hne⟩ := hall
    obtain ⟨i, hi⟩ := List.mem_iff_get?.mp hl
    cases l with
    | nil => exact absurd rfl hne
    | cons c l2 =>
      exact ⟨_, FanStep.publish p out i [] l2 c (by simpa using hi)⟩

/-- Every step strictly decreases the fan-in measure, so every run of the
fan-in stage terminates. -/
theorem fanStep_measure {s t : FanState} (h : FanStep s t) :
    fanMeasure t < fanMeasure s := by
  cases h with
  | publish p out i l1 l2 c hget =>
    have hlen := (join_set_perm p i l1 l2 c hget).length_eq
    simp only [List.length_cons] at hlen
    simp only [fanMeasure]
    omega
  | close p out h =>
    simp [fanMeasure]

/-- Today is never strictly before today: the strict lexicographic order is
irreflexive. -/
theorem before_irrefl (d : Date) : Date.before d d = false := by
  simp [Date.before]

/-- When the listing call of a course succeeds, its producer finishes normally
and publishes exactly the listed items that pass the visibility guard. -/
theorem lister_ok (srv : ClassroomService) (today : Date) (cid : String)
    (works : List CourseWork) (h : srv.listCourseWork cid = .ok works) :
    listCourseWorkFromCourseId srv today cid
      = ListerOutcome.done (works.filter (published srv today)) := by
  cases works <;> simp [listCourseWorkFromCourseId, h]

/-- Producers that all completed normally determine the initial pending lists
of the fan-in stage. -/
theorem map_publishedList_eq (srv : ClassroomService) (today : Date) :
    ∀ (ids : List String) (q : List (List CourseWork)),
      ids.map (fun cid => listCourseWorkFromCourseId srv today cid)
        = q.map ListerOutcome.done →
      ids.map (publishedList srv today) = q := by
  intro ids
  induction ids with
  | nil =>
    intro q hq
    cases q with
    | nil => rfl
    | cons a b => simp at hq
  | cons hd tl ih =>
    intro q hq
    cases q with
    | nil => simp at hq
    | cons out rest =>
      simp only [List.map_cons, List.cons.injEq] at hq
      obtain ⟨h1, h2⟩ := hq
      simp [publishedList, h1, ih rest h2]

/-! Concrete sample data used to instantiate the theorems below. -/

/-- A submission already turned in. -/
def subTurnedIn : StudentSubmission := ⟨"TURNED_IN"⟩

/-- A submission not yet turned in. -/
def subCreated : StudentSubmission := ⟨"CREATED"⟩

/-- The sample current date. -/
def today0 : Date := ⟨2025, 1, 15⟩

/-- An assignment due before `today0`. -/
def cwPast : CourseWork := ⟨"a1", "HW1", "c1", "L1", some ⟨2024, 12, 31⟩⟩

/-- An assignment due after `today0`. -/
def cwFuture : CourseWork := ⟨"a2", "HW2", "c1", "L2", some ⟨2025, 2, 1⟩⟩

/-- An assignment with no due date. -/
def cwNoDue : CourseWork := ⟨"a4", "HW4", "c1", "L4", none⟩

/-- An assignment whose remote due-date record holds month 13. -/
def cwBadDate : CourseWork := ⟨"a5", "HW5", "c1", "L5", some ⟨2025, 13, 1⟩⟩

/-- An assignment due on the genuine calendar date 0500-01-02, far before
today — but with a year that prints as only three digits. -/
def cwAncient : CourseWork := ⟨"a0", "HW0", "c1", "L0", some ⟨500, 1, 2⟩⟩

/-- A service whose submission lookup always reports a turned-in record. -/
def srvTurnedIn : ClassroomService :=
  ⟨fun _ => .ok [], fun _ _ => .ok [subTurnedIn]⟩

/-- A service whose submission lookup reports one not-turned-in record. -/
def srvCreated : ClassroomService :=
  ⟨fun _ => .ok [], fun _ _ => .ok [subCreated]⟩

/-- A service listing one future assignment, with a failing submission
lookup. -/
def srvSubsError : ClassroomService :=
  ⟨fun _ => .ok [cwFuture], fun _ _ => .error "boom"⟩

/-- A service whose listing call fails. -/
def srvListError : ClassroomService :=
  ⟨fun _ => .error "netfail", fun _ _ => .ok []⟩

/-- A service listing no assignments at all. -/
def srvNoWork : ClassroomService :=
  ⟨fun _ => .ok [], fun _ _ => .ok []⟩

/-- A service listing one future assignment with no submissions. -/
def srvOpen : ClassroomService :=
  ⟨fun _ => .ok [cwFuture], fun _ _ => .ok []⟩

/-- A service listing one assignment whose due-date record is invalid. -/
def srvBadDate : ClassroomService :=
  ⟨fun _ => .ok [cwBadDate], fun _ _ => .ok []⟩

/-! The claims. -/

/-- C1 as stated does not hold: an assignment whose due date is present and
is the calendar date 0500-01-02 — strictly before today — makes the filter
return a date-parse error rather than the error-free false verdict the claim
asserts, because `fmt.Sprintf` with the verb for a plain integer prints the
year with three digits and the layout "2006" of `time.Parse` demands four. -/
theorem overdue_never_visible_counterexample :
    cwAncient.dueDate = some ⟨500, 1, 2⟩
    ∧ Date.before ⟨500, 1, 2⟩ today0 = true
    ∧ isCourseworkVisible srvTurnedIn today0 cwAncient ≠ (false, none)
    ∧ isCourseworkVisible srvTurnedIn today0 cwAncient
        = (false, some VisError.parseError) := by
  refine ⟨rfl, by decide, by decide, by decide⟩

/-- C1 amended: an assignment whose due date is present, parses as a
four-digit-year calendar date, and is strictly before today, is judged not
visible with no error by `isCourseworkVisible`, for every service — hence
regardless of submission state and without consulting the submission-records
lookup. -/
theorem overdue_never_visible (srv : ClassroomService) (today : Date)
    (c : CourseWork) (dd : Date) (hdd : c.dueDate = some dd)
    (hparse : parseYMD dd = some dd)
    (hbefore : Date.before dd today = true) :
    isCourseworkVisible srv today c = (false, none) := by
  simp [isCourseworkVisible, effectiveDueDate, hdd, hparse, hbefore]

/-- Witness for C1 at a concrete overdue assignment, against a service that
would report a turned-in submission (showing the verdict ignores it). -/
theorem overdue_never_visible_witness :
    (cwPast.dueDate = some ⟨2024, 12, 31⟩
      ∧ parseYMD ⟨2024, 12, 31⟩ = some ⟨2024, 12, 31⟩
      ∧ Date.before ⟨2024, 12, 31⟩ today0 = true)
    ∧ isCourseworkVisible srvTurnedIn today0 cwPast = (false, none) :=
  ⟨⟨rfl, by decide, by decide⟩,
   overdue_never_visible srvTurnedIn today0 cwPast ⟨2024, 12, 31⟩ rfl
     (by decide) (by decide)⟩

/-- C2: an assignment with no due date defaults its effective due date to
today, today is never strictly before today, and the visibility verdict is
exactly the submission check — the date check never filters a date-less
assignment. -/
theorem no_due_date_passes_date_check (srv : ClassroomService) (today : Date)
    (c : CourseWork) (hdd : c.dueDate = none) :
    effectiveDueDate today c = some today
    ∧ Date.before today today = false
    ∧ isCourseworkVisible srv today c = submissionCheck srv c := by
  refine ⟨by simp [effectiveDueDate, hdd], before_irrefl today, ?_⟩
  simp [isCourseworkVisible, effectiveDueDate, hdd, before_irrefl]

/-- Witness for C2 at a concrete date-less assignment. -/
theorem no_due_date_passes_date_check_witness :
    cwNoDue.dueDate = none
    ∧ (effectiveDueDate today0 cwNoDue = some today0
       ∧ Date.before today0 today0 = false
       ∧ isCourseworkVisible srvTurnedIn today0 cwNoDue
           = submissionCheck srvTurnedIn cwNoDue) :=
  ⟨rfl, no_due_date_passes_date_check srvTurnedIn today0 cwNoDue rfl⟩

/-- C3: when the effective due date is today or later and the submission
lookup succeeds, the verdict is `(true, nil)` exactly when no returned record
has state "TURNED_IN", and `(false, nil)` when one does. -/
theorem due_later_visible_iff_not_turned_in (srv : ClassroomService)
    (today : Date) (c : CourseWork) (p : Date)
    (subs : List StudentSubmission)
    (heff : effectiveDueDate today c = some p)
    (hbefore : Date.before p today = false)
    (hsubs : srv.listStudentSubmissions c.courseId c.id = .ok subs) :
    isCourseworkVisible srv today c
      = (!subs.any (fun s => s.state == "TURNED_IN"), none)
    ∧ ((isCourseworkVisible srv today c).1 = true
        ↔ ∀ s ∈ subs, s.state ≠ "TURNED_IN") := by
  have h1 : isCourseworkVisible srv today c
      = (!subs.any (fun s => s.state == "TURNED_IN"), none) := by
    simp only [isCourseworkVisible, heff, hbefore, submissionCheck, hsubs,
      Bool.false_eq_true, if_false]
    cases hany : subs.any (fun s => s.state == "TURNED_IN") <;> simp [hany]
  refine ⟨h1, ?_⟩
  rw [h1]
  simp [List.any_eq_true]

/-- Witness for C3 at a future-dated assignment whose only record is not
turned in: the filter reports it visible. -/
theorem due_later_visible_iff_not_turned_in_witness :
    (effectiveDueDate today0 cwFuture = some ⟨2025, 2, 1⟩
      ∧ Date.before ⟨2025, 2, 1⟩ today0 = false
      ∧ srvCreated.listStudentSubmissions cwFuture.courseId cwFuture.id
          = .ok [subCreated])
    ∧ isCourseworkVisible srvCreated today0 cwFuture
        = (!([subCreated].any (fun s => s.state == "TURNED_IN")), none) :=
  ⟨⟨by decide, by decide, rfl⟩,
   (due_later_visible_iff_not_turned_in srvCreated today0 cwFuture
     ⟨2025, 2, 1⟩ [subCreated] (by decide) (by decide) rfl).1⟩

/-- C4: a failing submission lookup makes the check fail with the lookup
error and a `false` verdict, so the assignment is never published; the course
producer still completes normally (no process termination) and every other
listed assignment is filtered on its own verdict alone. -/
theorem lookup_error_soft_not_visible (srv : ClassroomService) (today : Date)
    (c : CourseWork) (p : Date) (e : String) (cid : String)
    (works : List CourseWork)
    (heff : effectiveDueDate today c = some p)
    (hbefore : Date.before p today = false)
    (herr : srv.listStudentSubmissions c.courseId c.id = .error e)
    (hlist : srv.listCourseWork cid = .ok works) (hc : c ∈ works) :
    isCourseworkVisible srv today c = (false, some (VisError.lookupError e))
    ∧ listCourseWorkFromCourseId srv today cid
        = ListerOutcome.done (works.filter (published srv today))
    ∧ c ∉ works.filter (published srv today)
    ∧ (∀ c2 ∈ works, (c2 ∈ works.filter (published srv today)
        ↔ published srv today c2 = true)) := by
  have h1 : isCourseworkVisible srv today c
      = (false, some (VisError.lookupError e)) := by
    simp [isCourseworkVisible, heff, hbefore, submissionCheck, herr]
  refine ⟨h1, lister_ok srv today cid works hlist, ?_, ?_⟩
  · intro hmem
    have := (List.mem_filter.mp hmem).2
    rw [published, h1] at this
    simp at this
  · intro c2 hc2
    simp [List.mem_filter, hc2]

/-- Witness for C4: concrete future-dated assignment whose submission lookup
fails; the producer completes with an empty published list. -/
theorem lookup_error_soft_not_visible_witness :
    (effectiveDueDate today0 cwFuture = some ⟨2025, 2, 1⟩
      ∧ Date.before ⟨2025, 2, 1⟩ today0 = false
      ∧ srvSubsError.listStudentSubmissions cwFuture.courseId cwFuture.id
          = .error "boom"
      ∧ srvSubsError.listCourseWork "c1" = .ok [cwFuture]
      ∧ cwFuture ∈ [cwFuture])
    ∧ isCourseworkVisible srvSubsError today0 cwFuture
        = (false, some (VisError.lookupError "boom"))
    ∧ cwFuture ∉ [cwFuture].filter (published srvSubsError today0) :=
  ⟨⟨by decide, by decide, rfl, rfl, List.mem_singleton.mpr rfl⟩,
   (lookup_error_soft_not_visible srvSubsError today0 cwFuture ⟨2025, 2, 1⟩
      "boom" "c1" [cwFuture] (by decide) (by decide) rfl rfl
      (List.mem_singleton.mpr rfl)).1,
   (lookup_error_soft_not_visible srvSubsError today0 cwFuture ⟨2025, 2, 1⟩
      "boom" "c1" [cwFuture] (by decide) (by decide) rfl rfl
      (List.mem_singleton.mpr rfl)).2.2.1⟩

/-- C5: a failing listing call for a course in the run kills that course's
producer fatally, and the sequential determinization of the whole run ends in
an error carrying no output lines at all — no partial results, no retry. -/
theorem listing_error_fatal (srv : ClassroomService) (today : Date)
    (e : String) (cid : String) (ids : List String)
    (hmem : cid ∈ ids) (herr : srv.listCourseWork cid = .error e) :
    listCourseWorkFromCourseId srv today cid = ListerOutcome.fatal e
    ∧ ∃ e2, runListerSeq srv today ids = Except.error e2 := by
  constructor
  · simp [listCourseWorkFromCourseId, herr]
  · induction ids with
    | nil => cases hmem
    | cons hd tl ih =>
      rcases List.mem_cons.mp hmem with heq | hmem2
      · subst heq
        exact ⟨e, by simp [runListerSeq, listCourseWorkFromCourseId, herr]⟩
      · obtain ⟨e2, he2⟩ := ih hmem2
        cases houtcome : listCourseWorkFromCourseId srv today hd with
        | fatal e3 => exact ⟨e3, by simp [runListerSeq, houtcome]⟩
        | done out => exact ⟨e2, by simp [runListerSeq, houtcome, he2]⟩

/-- Witness for C5 at a one-course run whose listing call fails. -/
theorem listing_error_fatal_witness :
    ("c1" ∈ ["c1"] ∧ srvListError.listCourseWork "c1" = .error "netfail")
    ∧ listCourseWorkFromCourseId srvListError today0 "c1"
        = ListerOutcome.fatal "netfail"
    ∧ ∃ e2, runListerSeq srvListError today0 ["c1"] = Except.error e2 :=
  ⟨⟨List.mem_singleton.mpr rfl, rfl⟩,
   listing_error_fatal srvListError today0 "netfail" "c1" ["c1"]
     (List.mem_singleton.mpr rfl) rfl⟩

/-- C6: a course whose listing call succeeds with zero assignments makes its
producer finish normally having published nothing. -/
theorem empty_course_publishes_nothing (srv : ClassroomService)
    (today : Date) (cid : String) (h : srv.listCourseWork cid = .ok []) :
    listCourseWorkFromCourseId srv today cid = ListerOutcome.done [] := by
  simp [listCourseWorkFromCourseId, h]

/-- Witness for C6 at a concrete empty course. -/
theorem empty_course_publishes_nothing_witness :
    srvNoWork.listCourseWork "c1" = .ok []
    ∧ listCourseWorkFromCourseId srvNoWork today0 "c1"
        = ListerOutcome.done [] :=
  ⟨rfl, empty_course_publishes_nothing srvNoWork today0 "c1" rfl⟩

/-- C7: for every sequence of assignments consumed from the queue the
aggregator prints exactly one line per consumed assignment, in arrival order,
of the form title, space, identifier in parentheses, then "link:" and the
direct link — and nothing else. -/
theorem aggregator_prints_one_line_each (cs : List CourseWork) :
    aggregate cs
      = cs.map (fun c => c.title ++ " (" ++ c.id ++ ") link:" ++ c.alternateLink)
    ∧ (aggregate cs).length = cs.length :=
  ⟨rfl, by simp [aggregate]⟩

/-- C9: whenever `isCourseworkVisible` returns a non-nil error its boolean
component is `false`; a `true` verdict always comes with a nil error. -/
theorem visible_implies_no_error (srv : ClassroomService) (today : Date)
    (c : CourseWork)
    (h : (isCourseworkVisible srv today c).2 ≠ none) :
    (isCourseworkVisible srv today c).1 = false := by
  revert h
  unfold isCourseworkVisible submissionCheck
  split
  · intro _; rfl
  · split
    · intro _; rfl
    · split
      · intro _; rfl
      · split
        · intro _; rfl
        · intro h; exact absurd rfl h

/-- Witness for C9 at an assignment whose due-date record cannot be parsed,
where the check does return an error. -/
theorem visible_implies_no_error_witness :
    (isCourseworkVisible srvTurnedIn today0 cwBadDate).2 ≠ none
    ∧ (isCourseworkVisible srvTurnedIn today0 cwBadDate).1 = false :=
  ⟨by decide, visible_implies_no_error srvTurnedIn today0 cwBadDate (by decide)⟩

/-- C10: an assignment whose present due-date fields do not parse as a valid
calendar date yields `(false, parse error)`; it is never published, and the
course producer still completes normally — in the concurrent program a
date-parse error is a per-item soft failure, not fatal. -/
theorem bad_due_date_soft_failure (srv : ClassroomService) (today : Date)
    (c : CourseWork) (dd : Date) (cid : String) (works : List CourseWork)
    (hdd : c.dueDate = some dd) (hbad : parseYMD dd = none)
    (hlist : srv.listCourseWork cid = .ok works) (hc : c ∈ works) :
    isCourseworkVisible srv today c = (false, some VisError.parseError)
    ∧ published srv today c = false
    ∧ listCourseWorkFromCourseId srv today cid
        = ListerOutcome.done (works.filter (published srv today))
    ∧ c ∉ works.filter (published srv today) := by
  have h1 : isCourseworkVisible srv today c
      = (false, some VisError.parseError) := by
    simp [isCourseworkVisible, effectiveDueDate, hdd, hbad]
  have h2 : published srv today c = false := by
    rw [published, h1]
    rfl
  refine ⟨h1, h2, lister_ok srv today cid works hlist, ?_⟩
  intro hmem
  have := (List.mem_filter.mp hmem).2
  rw [h2] at this
  cases this

/-- Witness for C10 at the month-13 assignment: the check errors, the item is
not published, and the producer finishes with an empty published list. -/
theorem bad_due_date_soft_failure_witness :
    (cwBadDate.dueDate = some ⟨2025, 13, 1⟩
      ∧ parseYMD ⟨2025, 13, 1⟩ = none
      ∧ srvBadDate.listCourseWork "c1" = .ok [cwBadDate]
      ∧ cwBadDate ∈ [cwBadDate])
    ∧ isCourseworkVisible srvBadDate today0 cwBadDate
        = (false, some VisError.parseError)
    ∧ listCourseWorkFromCourseId srvBadDate today0 "c1"
        = ListerOutcome.done [] :=
  ⟨⟨rfl, by decide, rfl, List.mem_singleton.mpr rfl⟩,
   (bad_due_date_soft_failure srvBadDate today0 cwBadDate ⟨2025, 13, 1⟩ "c1"
      [cwBadDate] rfl (by decide) rfl (List.mem_singleton.mpr rfl)).1,
   by
     have h := (bad_due_date_soft_failure srvBadDate today0 cwBadDate
       ⟨2025, 13, 1⟩ "c1" [cwBadDate] rfl (by decide) rfl
       (List.mem_singleton.mpr rfl)).2.2.1
     simpa [published, isCourseworkVisible, effectiveDueDate] using h⟩

/-- C8: in a run whose producers all completed normally, every reachable
state of the fan-in stage satisfies: once the channel is closed (which the
close rule permits only once, only while the channel is open, and only after
the two-level join barrier — every course's pending sends done — has passed)
the printed output is a permutation of one line per published assignment, so
each visible assignment is printed exactly once, with no duplicates and no
lost items; while the channel is open some step is always enabled (the
aggregator neither terminates early nor blocks forever); and every step
decreases a finite measure, so the stage always terminates. -/
theorem fanout_fanin_exactly_once (srv : ClassroomService) (today : Date)
    (ids : List String) (p0 : List (List CourseWork)) (s : FanState)
    (hdone : ids.map (fun cid => listCourseWorkFromCourseId srv today cid)
      = p0.map ListerOutcome.done)
    (hreach : FanReach (initState p0) s) :
    (s.closed = true →
      List.Perm s.output
        (((ids.map (publishedList srv today)).flatten).map formatLine))
    ∧ (s.closed = false → ∃ t, FanStep s t)
    ∧ (∀ t, FanStep s t → fanMeasure t < fanMeasure s) := by
  have hp0 := map_publishedList_eq srv today ids p0 hdone
  obtain ⟨hperm, hclosed⟩ := fanInv_reach hreach
  refine ⟨?_, fun h => fanProgress s h, fun t ht => fanStep_measure ht⟩
  intro hc
  have hempty : s.pending.flatten = [] := by
    rw [List.flatten_eq_nil_iff]
    exact hclosed hc
  rw [hp0]
  rw [hempty] at hperm
  simpa using hperm

/-- Witness for C8: a one-course run with one visible assignment; the state
after one delivery and the close is reachable and its output is exactly that
assignment's line. -/
theorem fanout_fanin_exactly_once_witness :
    (["c1"].map (fun cid => listCourseWorkFromCourseId srvOpen today0 cid)
      = [[cwFuture]].map ListerOutcome.done)
    ∧ FanReach (initState [[cwFuture]]) ⟨[[]], true, [formatLine cwFuture]⟩
    ∧ List.Perm [formatLine cwFuture]
        (((["c1"].map (publishedList srvOpen today0)).flatten).map formatLine) := by
  have hdone : ["c1"].map
      (fun cid => listCourseWorkFromCourseId srvOpen today0 cid)
      = [[cwFuture]].map ListerOutcome.done := by decide
  have hstep1 : FanStep (initState [[cwFuture]])
      ⟨[[]], false, [formatLine cwFuture]⟩ :=
    FanStep.publish [[cwFuture]] [] 0 [] [] cwFuture rfl
  have hstep2 : FanStep ⟨[[]], false, [formatLine cwFuture]⟩
      ⟨[[]], true, [formatLine cwFuture]⟩ :=
    FanStep.close [[]] [formatLine cwFuture] (by intro l hl; simpa using hl)
  have hreach : FanReach (initState [[cwFuture]])
      ⟨[[]], true, [formatLine cwFuture]⟩ :=
    Relation.ReflTransGen.tail
      (Relation.ReflTransGen.tail Relation.ReflTransGen.refl hstep1) hstep2
  refine ⟨hdone, hreach, ?_⟩
  have h := (fanout_fanin_exactly_once srvOpen today0 ["c1"] [[cwFuture]]
    ⟨[[]], true, [formatLine cwFuture]⟩ hdone hreach).1 rfl
  simpa using h

end ClassroomAPI
